import Mathlib

/-!
Verification of the DNI OCR field-extraction engine (`src/ocr_dni_engine.py`).

The engine is embedded shallowly: Python strings become `List Char`, the
regular expressions of the source become explicit scanning functions, the
`datos` dictionary becomes a record of optional fields, and the ambient
clock read by `datetime.now()` becomes an explicit `now : Int` parameter
(a proleptic-Gregorian day number, the only part of the clock the code
observes through `timedelta.days`).

Modelling conventions, stated once:
* Python `\d`, `\s`, `\w` and `str.strip`/`int()` whitespace are modelled
  over the ASCII range plus the accented letters that appear in the
  engine's own character classes (`ÁÉÍÓÚÑ` and their lowercase forms);
  the engine's patterns themselves are pure ASCII.
* `int()` is modelled by `pyInt`: optional surrounding whitespace, an
  optional sign, then digits with single underscores allowed between
  digits — Python's actual literal grammar for `int(str)`.
* `datetime(year, month, day)` validation is `esFechaValida`:
  1 ≤ year ≤ 9999, 1 ≤ month ≤ 12, 1 ≤ day ≤ days-in-month.
* `(datetime.now() - fecha).days` equals the difference of day numbers
  (the fractional time of day is floored away), so ages are
  `(now - rataDie y m d).fdiv 365`, matching Python's floor division.
-/

namespace OcrDni

/-- Python strings are modelled as lists of characters. -/
abbrev Str := List Char

/-! ## Character classes -/

/-- ASCII decimal digit, the model of regex `\d`. -/
def esDigito (c : Char) : Bool := 48 ≤ c.toNat && c.toNat ≤ 57

/-- ASCII uppercase letter `A`-`Z`. -/
def esMayusAsc (c : Char) : Bool := 65 ≤ c.toNat && c.toNat ≤ 90

/-- ASCII lowercase letter `a`-`z`. -/
def esMinusAsc (c : Char) : Bool := 97 ≤ c.toNat && c.toNat ≤ 122

/-- The uppercase accented letters of the engine's classes. -/
def acentosMayus : List Char := ['Á', 'É', 'Í', 'Ó', 'Ú', 'Ñ']

/-- The lowercase accented letters corresponding to `acentosMayus`. -/
def acentosMinus : List Char := ['á', 'é', 'í', 'ó', 'ú', 'ñ']

/-- The character class `[A-ZÁÉÍÓÚÑ]` of the source. -/
def esMayusEx (c : Char) : Bool := esMayusAsc c || acentosMayus.contains c

/-- Whitespace, the model of regex `\s` and of `str.strip`/`int()` stripping. -/
def esPySpace (c : Char) : Bool :=
  c == ' ' || c == '\t' || c == '\n' || c == '\r' || c == '\x0b' || c == '\x0c'

/-- Word character, the model of regex `\b`'s notion of `\w`
(ASCII alphanumerics, underscore, and the accented letters above). -/
def esPalabra (c : Char) : Bool :=
  esMayusAsc c || esMinusAsc c || esDigito c || c == '_' ||
    acentosMayus.contains c || acentosMinus.contains c

/-- ASCII/accented lowercasing, the model of `str.lower` and `re.IGNORECASE`. -/
def minuscula (c : Char) : Char :=
  if esMayusAsc c then Char.ofNat (c.toNat + 32)
  else if c = 'Á' then 'á' else if c = 'É' then 'é' else if c = 'Í' then 'í'
  else if c = 'Ó' then 'ó' else if c = 'Ú' then 'ú' else if c = 'Ñ' then 'ñ'
  else c

/-- ASCII/accented uppercasing, the model of `str.upper`. -/
def mayuscula (c : Char) : Char :=
  if esMinusAsc c then Char.ofNat (c.toNat - 32)
  else if c = 'á' then 'Á' else if c = 'é' then 'É' else if c = 'í' then 'Í'
  else if c = 'ó' then 'Ó' else if c = 'ú' then 'Ú' else if c = 'ñ' then 'Ñ'
  else c

/-- Lowercase a whole string. -/
def enMinusculas (s : Str) : Str := s.map minuscula

/-! ## String primitives -/

/-- Left strip, as in `str.strip`. -/
def recortaIzq (s : Str) : Str := s.dropWhile esPySpace

/-- Both-ends strip, the model of `str.strip()`. -/
def recorta (s : Str) : Str := (recortaIzq ((recortaIzq s).reverse)).reverse

/-- Split on newline characters, the model of `str.split('\n')`. -/
def splitNl : Str → List Str
  | [] => [[]]
  | '\n' :: r => [] :: splitNl r
  | c :: r =>
    match splitNl r with
    | x :: xs => (c :: x) :: xs
    | [] => [[c]]

/-- The line list built at the top of `parsear_dni`:
`[l.strip() for l in texto.split('\n') if l.strip()]`. -/
def lineasDe (texto : Str) : List Str :=
  ((splitNl texto).map recorta).filter (fun l => !l.isEmpty)

/-- Boolean string-head test, the model of `str.startswith`. -/
def esPrefijo : Str → Str → Bool
  | [], _ => true
  | _ :: _, [] => false
  | a :: as, b :: bs => a == b && esPrefijo as bs

/-- Substring containment (used for keyword regexes with no structure). -/
def contiene (pat : Str) : Str → Bool
  | [] => pat.isEmpty
  | c :: r => esPrefijo pat (c :: r) || contiene pat r

/-- Case-insensitive containment; `pat` must already be lowercase. -/
def contieneCI (pat : Str) (s : Str) : Bool := contiene pat (enMinusculas s)

/-- Leftmost-match scanner: apply the matcher at every suffix, in order,
the model of `re.search` for patterns that need no lookbehind. -/
def escanear {β : Type} (f : Str → Option β) : Str → Option β
  | [] => f []
  | c :: r =>
    match f (c :: r) with
    | some b => some b
    | none => escanear f r

/-- Leftmost-match scanner that tracks whether the previous character was a
word character, the model of `re.search` for patterns starting with `\b`. -/
def escanearPal {β : Type} (f : Bool → Str → Option β) : Bool → Str → Option β
  | _, [] => none
  | pw, c :: r =>
    match f pw (c :: r) with
    | some b => some b
    | none => escanearPal f (esPalabra c) r

/-- First line of a window for which the extractor fires (models the
`for`-with-`break` loops over candidate lines). -/
def primeraOpc {β : Type} (f : Str → Option β) : List Str → Option β
  | [] => none
  | l :: r =>
    match f l with
    | some b => some b
    | none => primeraOpc f r

/-! ## Python `int()` -/

/-- Numeric value of an ASCII digit. -/
def valorDigito (c : Char) : Nat := c.toNat - 48

/-- Tail of Python's integer-literal grammar: `('_'? digit)*`. -/
def digitosResto : Nat → Str → Option Nat
  | acc, [] => some acc
  | acc, '_' :: c :: r =>
    if esDigito c then digitosResto (acc * 10 + valorDigito c) r else none
  | _, ['_'] => none
  | acc, c :: r =>
    if esDigito c then digitosResto (acc * 10 + valorDigito c) r else none

/-- Python's integer-literal digit grammar: `digit ('_'? digit)*`. -/
def digitosPy : Str → Option Nat
  | [] => none
  | c :: r => if esDigito c then digitosResto (valorDigito c) r else none

/-- The model of Python `int(s)`: strip whitespace, optional sign, digits
with single underscores allowed between digits; `none` models `ValueError`. -/
def pyInt (s : Str) : Option Int :=
  match recorta s with
  | '+' :: r => (digitosPy r).map (fun n => (n : Int))
  | '-' :: r => (digitosPy r).map (fun n => -(n : Int))
  | r => (digitosPy r).map (fun n => (n : Int))

/-! ## Calendar -/

/-- Gregorian leap year. -/
def esBisiesto (y : Int) : Bool := y % 4 == 0 && (y % 100 != 0 || y % 400 == 0)

/-- Days in a month of a given year. -/
def diasEnMes (y m : Int) : Int :=
  if m = 2 then (if esBisiesto y then 29 else 28)
  else if m = 4 ∨ m = 6 ∨ m = 9 ∨ m = 11 then 30 else 31

/-- The model of `datetime(y, m, d)` succeeding: Python's `datetime`
accepts years 1..9999 and real calendar dates only. -/
def esFechaValida (y m d : Int) : Bool :=
  decide (1 ≤ y ∧ y ≤ 9999 ∧ 1 ≤ m ∧ m ≤ 12 ∧ 1 ≤ d ∧ d ≤ diasEnMes y m)

/-- Days in the months strictly before month `m`. -/
def diasAcumMes (bis : Bool) (m : Int) : Int :=
  (if m ≤ 1 then 0 else if m = 2 then 31 else if m = 3 then 59
   else if m = 4 then 90 else if m = 5 then 120 else if m = 6 then 151
   else if m = 7 then 181 else if m = 8 then 212 else if m = 9 then 243
   else if m = 10 then 273 else if m = 11 then 304 else 334)
  + (if bis ∧ 3 ≤ m then 1 else 0)

/-- Proleptic Gregorian day number (rata die); differences of these are
exactly Python's `(date1 - date2).days`. -/
def rataDie (y m d : Int) : Int :=
  365 * (y - 1) + (y - 1) / 4 - (y - 1) / 100 + (y - 1) / 400
    + diasAcumMes (esBisiesto y) m + d

/-! ## Leaf 1: the date token corrector `corregir_fecha_ocr` -/

/-- The date token corrector (source lines 41-62): split an 8-character
token as DDMMYYYY, apply the literal day/month/year corrections in order,
then validate through `datetime`; any `int()`/`datetime` error yields `None`. -/
def corregir_fecha_ocr (s : Str) : Option Str :=
  if s.length ≠ 8 then none
  else
    let dia0 := s.take 2
    let mes0 := (s.drop 2).take 2
    let anio0 := s.drop 4
    let diaP : Option Str :=
      if esPrefijo ['3'] dia0 then
        match pyInt dia0 with
        | none => none
        | some v => some (if 31 < v then '0' :: dia0.drop 1 else dia0)
      else some dia0
    match diaP with
    | none => none
    | some dia =>
      let mes := if mes0 = ['1', '9'] then ['1', '0'] else mes0
      let anio :=
        if anio0 = ['2', '0', '6', '2'] then ['2', '0', '0', '2']
        else if anio0 = ['2', '9', '1', '9'] then ['2', '0', '1', '9']
        else anio0
      match pyInt anio, pyInt mes, pyInt dia with
      | some y, some m, some d =>
        if esFechaValida y m d then some (dia ++ '/' :: (mes ++ '/' :: anio))
        else none
      | _, _, _ => none

/-! ## Leaf 2: the name token normalizer `separar_nombres_pegados` -/

/-- The fixed given-name vocabulary, in source order. -/
def nombres_comunes : List Str :=
  ([r"JORGE", r"LUIS", r"CARLOS", r"JUAN", r"JOSE", r"MARIA",
    r"ISABEL", r"ROSA", r"ANA", r"CARMEN", r"MONICA", r"MILAGROS",
    r"PATRICIA", r"VICTORIA", r"ELENA", r"SANDRA", r"DIANA", r"ADRIAN",
    r"PEDRO", r"PABLO", r"MIGUEL", r"ANGEL", r"ANTONIO", r"MANUEL",
    r"RICARDO", r"ROBERTO", r"DANIEL", r"DAVID", r"FRANCISCO"]).map String.data

/-- One pass of the vocabulary walk of `separar_nombres_pegados`:
`startswith` with a strictly longer token, then the remainder test; on a
failed remainder test the walk continues with later entries. -/
def separarAux (n : Str) : List Str → Option Str
  | [] => none
  | e :: rest =>
    if esPrefijo e n ∧ e.length < n.length then
      if n.drop e.length ∈ nombres_comunes ∨ 3 ≤ (n.drop e.length).length then
        some (e ++ ' ' :: n.drop e.length)
      else separarAux n rest
    else separarAux n rest

/-- The name token normalizer (source lines 64-89). -/
def separar_nombres_pegados (n : Str) : Str := (separarAux n nombres_comunes).getD n

/-! ## The regular expressions of `parsear_dni`, as scanners -/

/-- Matcher for `PER(\d{8})` at one position. -/
def matchPEREn (s : Str) : Option Str :=
  if esPrefijo ['P', 'E', 'R'] s then
    if ((s.drop 3).take 8).length = 8 ∧ ((s.drop 3).take 8).all esDigito then
      some ((s.drop 3).take 8)
    else none
  else none

/-- National-ID strategy 1: `re.search(r'PER(\d{8})', texto)`. -/
def buscarPER (texto : Str) : Option Str := escanear matchPEREn texto

/-- Matcher for `DNI\s*(\d{8})` (input already lowercased) at one position;
`\s*` is exact greedy here because `\s` and `\d` are disjoint. -/
def matchDNIEn (s : Str) : Option Str :=
  if esPrefijo ['d', 'n', 'i'] s then
    if (((s.drop 3).dropWhile esPySpace).take 8).length = 8 ∧
        (((s.drop 3).dropWhile esPySpace).take 8).all esDigito then
      some (((s.drop 3).dropWhile esPySpace).take 8)
    else none
  else none

/-- National-ID strategy 2: `re.search(r'DNI\s*(\d{8})', texto, re.IGNORECASE)`
(digits are unchanged by lowercasing, so scanning the lowercased text
returns the original digit group). -/
def buscarDNI (texto : Str) : Option Str := escanear matchDNIEn (enMinusculas texto)

/-- Tail admissibility for `\b(\d{8})[-\s]?\d?\b` after the eight digits:
the four backtracking alternatives of the two optional elements,
each ending at a word boundary. -/
def colaSolo (resto : Str) : Bool :=
  match resto with
  | [] => true
  | x :: r1 =>
    (!esPalabra x) ||
    (esDigito x && (match r1 with
      | [] => true
      | y :: _ => !esPalabra y)) ||
    ((x == '-' || esPySpace x) && (match r1 with
      | [] => false
      | y :: r2 =>
        (esDigito y && (match r2 with
          | [] => true
          | z :: _ => !esPalabra z)) ||
        esPalabra y))

/-- Matcher for `\b(\d{8})[-\s]?\d?\b` at one position, given whether the
preceding character was a word character. -/
def matchSoloEn (pw : Bool) (s : Str) : Option Str :=
  if pw then none
  else
    if (s.take 8).length = 8 ∧ (s.take 8).all esDigito ∧ colaSolo (s.drop 8) then
      some (s.take 8)
    else none

/-- National-ID strategy 3: `re.search(r'\b(\d{8})[-\s]?\d?\b', texto)`. -/
def buscarSolo (texto : Str) : Option Str := escanearPal matchSoloEn false texto

/-- A word boundary lies before this string (it is empty or starts with a
non-word character); used after a word character has just been consumed. -/
def fronteraAqui : Str → Bool
  | [] => true
  | c :: _ => !esPalabra c

/-- Matcher for `\b(\d{8})\b` at one position. -/
def matchToken8En (pw : Bool) (s : Str) : Option Str :=
  if pw then none
  else
    if (s.take 8).length = 8 ∧ (s.take 8).all esDigito ∧ fronteraAqui (s.drop 8) then
      some (s.take 8)
    else none

/-- First eight-digit token of a line: `re.search(r'\b(\d{8})\b', linea)`. -/
def buscarToken8 (l : Str) : Option Str := escanearPal matchToken8En false l

/-- Matcher for `(\d{6})([MF])(\d{7})` at one position. -/
def matchMrzSexoEn (s : Str) : Option Char :=
  if (s.take 6).length = 6 ∧ (s.take 6).all esDigito then
    match s.drop 6 with
    | [] => none
    | c :: r =>
      if (c = 'M' ∨ c = 'F') ∧ (r.take 7).length = 7 ∧ (r.take 7).all esDigito
      then some c else none
  else none

/-- Sex strategy 1: `re.search(r'(\d{6})([MF])(\d{7})', texto)`,
returning the sex letter. -/
def buscarMRZSexo (texto : Str) : Option Char := escanear matchMrzSexoEn texto

/-- Matcher for `\b([SCDV])\b` at one position. -/
def matchSCDVEn (pw : Bool) (s : Str) : Option Char :=
  if pw then none
  else
    match s with
    | [] => none
    | c :: r =>
      if (c = 'S' ∨ c = 'C' ∨ c = 'D' ∨ c = 'V') ∧ fronteraAqui r then some c
      else none

/-- First isolated marital-status letter: `re.search(r'\b([SCDV])\b', linea)`. -/
def buscarSCDV (l : Str) : Option Char := escanearPal matchSCDVEn false l

/-- A suffix position satisfying a Boolean matcher (for keyword regexes
with internal structure). -/
def algunSufijo (f : Str → Bool) : Str → Bool
  | [] => f []
  | c :: r => f (c :: r) || algunSufijo f r

/-- Matcher for `Estado\s*Ci[vwtu][a-z]*` (input already lowercased) at one
position; the trailing `[a-z]*` never affects match existence. -/
def matchEstadoCiEn (s : Str) : Bool :=
  if esPrefijo ['e', 's', 't', 'a', 'd', 'o'] s then
    match (s.drop 6).dropWhile esPySpace with
    | c1 :: c2 :: x :: _ =>
      c1 == 'c' && c2 == 'i' && (x == 'v' || x == 'w' || x == 't' || x == 'u')
    | _ => false
  else false

/-- Marital-status keyword: `re.search(r'Estado\s*Ci[vwtu][a-z]*', linea,
re.IGNORECASE)`. -/
def contieneEstadoCi (l : Str) : Bool := algunSufijo matchEstadoCiEn (enMinusculas l)

/-! ## Keyword pattern constants (lowercased) -/

def patPrimer : Str := (r"primer").data
def patSegundo : Str := (r"segundo").data
def patApellido : Str := (r"apellido").data
def patNombres : Str := (r"nombres").data
def patNacimiento : Str := (r"nacimiento").data
def patSexo : Str := (r"sexo").data
def patEstado : Str := (r"estado").data
def patCivil : Str := (r"civil").data

/-! ## Field strategies -/

/-- Keyword test of the surname scan: `re.search(r'(Primer|Segundo|Apellido)',
linea, re.IGNORECASE)`. -/
def claveApellido (l : Str) : Bool :=
  contieneCI patPrimer l || contieneCI patSegundo l || contieneCI patApellido l

/-- Full-match test `^\d{6,}$` (pure digit run of length at least 6). -/
def esDigitos6 (c : Str) : Bool := 6 ≤ c.length && c.all esDigito

/-- Search test `[^A-ZÁÉÍÓÚÑ\s]` (some character outside uppercase letters
and whitespace). -/
def tieneSimbolo (c : Str) : Bool := c.any (fun x => !(esMayusEx x || esPySpace x))

/-- Full-match test `^[A-ZÁÉÍÓÚÑ]+$`. -/
def esMayusPuras (c : Str) : Bool := !c.isEmpty && c.all esMayusEx

/-- Full-match test `^[A-ZÁÉÍÓÚÑ\s]+$`. -/
def esMayusEsp (c : Str) : Bool := !c.isEmpty && c.all (fun x => esMayusEx x || esPySpace x)

/-- One surname candidate (source lines 141-154): skip digit runs, short or
symbol-bearing lines; append an all-uppercase candidate not yet accepted. -/
def pasoApellido (acc : List Str) (cand0 : Str) : List Str :=
  let cand := recorta cand0
  if esDigitos6 cand then acc
  else if cand.length < 3 ∨ tieneSimbolo cand then acc
  else if esMayusPuras cand then (if cand ∈ acc then acc else acc ++ [cand])
  else acc

/-- The surname accumulation loop (source lines 134-155): for every line
matching a surname keyword, fold the following up to five lines. -/
def buscarApellidos (ls : List Str) : List Str :=
  List.foldl
    (fun acc i =>
      if claveApellido (ls.getD i []) then
        List.foldl pasoApellido acc ((ls.drop (i + 1)).take 5)
      else acc)
    [] (List.range ls.length)

/-- Full-line match of the MRZ names pattern `^[A-Z]{3,}<<([A-Z<]+)$`,
returning the group; the leading run is maximal and cannot backtrack into
`<`, so the decomposition is exact. -/
def lineaMrz (l : Str) : Option Str :=
  let u := l.takeWhile esMayusAsc
  if 3 ≤ u.length then
    match l.drop u.length with
    | '<' :: '<' :: v =>
      if !v.isEmpty && v.all (fun c => esMayusAsc c || c == '<') then some v else none
    | _ => none
  else none

/-- Names strategy 1 (source lines 168-174): the first raw line matching the
MRZ pattern (the `re.MULTILINE` search returns only that one); its group has
fillers collapsed to spaces and is kept only if longer than two characters. -/
def mrzNombresAux : List Str → Option Str
  | [] => none
  | l :: rest =>
    match lineaMrz l with
    | some v =>
      let raw := recorta (v.map (fun c => if c == '<' then ' ' else c))
      if !raw.isEmpty ∧ 2 < raw.length then some raw else none
    | none => mrzNombresAux rest

/-- Names strategy 1 entry point. -/
def mrzNombres (texto : Str) : Option Str := mrzNombresAux (splitNl texto)

/-- One candidate line of names strategy 2 (source lines 182-196): skip digit
runs; accept the first uppercase/space candidate of length at least 4 that is
not an accepted surname, passed through the normalizer. -/
def escogeNombre (apellidos : List Str) : List Str → Option Str
  | [] => none
  | c0 :: rest =>
    let cand := recorta c0
    if esDigitos6 cand then escogeNombre apellidos rest
    else if 4 ≤ cand.length ∧ esMayusEsp cand ∧ cand ∉ apellidos then
      some (recorta (separar_nombres_pegados cand))
    else escogeNombre apellidos rest

/-- Names strategy 2 (source lines 177-199): every keyword line matching
`(Pre\s*)?Nombres` is tried in order with a three-line window until one
yields a value. -/
def nombresTextoAux (ls : List Str) (apellidos : List Str) : List Nat → Option Str
  | [] => none
  | i :: is =>
    if contieneCI patNombres (ls.getD i []) then
      match escogeNombre apellidos ((ls.drop (i + 1)).take 3) with
      | some n => some n
      | none => nombresTextoAux ls apellidos is
    else nombresTextoAux ls apellidos is

/-- Names strategy 2 entry point. -/
def nombresTexto (ls : List Str) (apellidos : List Str) : Option Str :=
  nombresTextoAux ls apellidos (List.range ls.length)

/-- Full-line match of `^([A-ZÁÉÍÓÚÑ]{4,}\s+[A-ZÁÉÍÓÚÑ]{4,})$`: two
uppercase words of length at least 4 separated by whitespace. -/
def esDosPalabrasMayus (l : Str) : Bool :=
  let u := l.takeWhile esMayusEx
  let r1 := l.drop u.length
  let w := r1.takeWhile esPySpace
  let v := r1.drop w.length
  4 ≤ u.length && 1 ≤ w.length && 4 ≤ v.length && v.all esMayusEx

/-- Names strategy 3 (source lines 202-209): first standalone two-word
uppercase line not already claimed as a surname. -/
def nombresPatron (apellidos : List Str) : List Str → Option Str
  | [] => none
  | l :: rest =>
    if esDosPalabrasMayus (recorta l) ∧ recorta l ∉ apellidos then some (recorta l)
    else nombresPatron apellidos rest

/-- Split on `/`, the model of `str.split('/')`. -/
def partirBarras : Str → List Str
  | [] => [[]]
  | '/' :: r => [] :: partirBarras r
  | c :: r =>
    match partirBarras r with
    | x :: xs => (c :: x) :: xs
    | [] => [[c]]

/-- Validation of a corrected date string (source lines 229-241): split into
components, re-parse through `datetime`, derive the age from the current
day number, and accept only ages in [0,120].  Returns (date, ISO date, age).
A component list that is not a triple would raise in Python; it cannot arise
from `corregir_fecha_ocr` output. -/
def valida8 (now : Int) (fc : Str) : Option (Str × Str × Int) :=
  match partirBarras fc with
  | [dia, mes, anio] =>
    match pyInt anio, pyInt mes, pyInt dia with
    | some y, some m, some d =>
      if esFechaValida y m d then
        let edad := (now - rataDie y m d).fdiv 365
        if 0 ≤ edad ∧ edad ≤ 120 then
          some (fc, anio ++ '-' :: (mes ++ '-' :: dia), edad)
        else none
      else none
    | _, _, _ => none
  | _ => none

/-- One line of the birth-date window: only the first eight-digit token of
the line is tried (source lines 223-243). -/
def fechaDeLinea (now : Int) (l : Str) : Option (Str × Str × Int) :=
  match buscarToken8 l with
  | some raw =>
    match corregir_fecha_ocr raw with
    | some fc => valida8 now fc
    | none => none
  | none => none

/-- Birth-date search (source lines 218-246): every line matching
`Nacimiento` is tried in order, scanning it and the following five lines. -/
def buscarFechaAux (now : Int) (ls : List Str) : List Nat → Option (Str × Str × Int)
  | [] => none
  | i :: is =>
    if contieneCI patNacimiento (ls.getD i []) then
      match primeraOpc (fechaDeLinea now) ((ls.drop i).take 6) with
      | some r => some r
      | none => buscarFechaAux now ls is
    else buscarFechaAux now ls is

/-- Birth-date search entry point. -/
def buscarFecha (now : Int) (ls : List Str) : Option (Str × Str × Int) :=
  buscarFechaAux now ls (List.range ls.length)

def strM : Str := (r"M").data
def strF : Str := (r"F").data
def strMASCULINO : Str := (r"MASCULINO").data
def strFEMENINO : Str := (r"FEMENINO").data

/-- One line of the sex window: the literal membership test of source
line 265. -/
def sexoDeLinea (l : Str) : Option Char :=
  if l = strM ∨ l = strF ∨ l = strMASCULINO ∨ l = strFEMENINO then
    some (if l = strM ∨ l = strMASCULINO then 'M' else 'F')
  else none

/-- Sex strategy 2 (source lines 261-271): only the FIRST line containing
`Sexo` is considered (the outer loop breaks unconditionally after it);
its following two lines are searched for a literal sex word. -/
def sexoTextoAux (ls : List Str) : List Nat → Option Char
  | [] => none
  | i :: is =>
    if contieneCI patSexo (ls.getD i []) then
      primeraOpc sexoDeLinea ((ls.drop (i + 1)).take 2)
    else sexoTextoAux ls is

/-- Sex strategy 2 entry point. -/
def sexoTexto (ls : List Str) : Option Char :=
  sexoTextoAux ls (List.range ls.length)

def strSOLTERO : Str := (r"SOLTERO").data
def strCASADO : Str := (r"CASADO").data
def strDIVORCIADO : Str := (r"DIVORCIADO").data
def strVIUDO : Str := (r"VIUDO").data

/-- The fixed marital-status table. -/
def mapaEC (c : Char) : Str :=
  if c = 'S' then strSOLTERO
  else if c = 'C' then strCASADO
  else if c = 'D' then strDIVORCIADO
  else strVIUDO

/-- The four single-letter lines recognised by the marital-status checks. -/
def letrasEC : List Str := [['S'], ['C'], ['D'], ['V']]

/-- One candidate line of marital-status strategy 1 (source lines 285-322):
three checks in order — exact single letter, short line whose uppercasing is
a letter, first isolated letter token. -/
def ecDeLinea (cand0 : Str) : Option Str :=
  let cand := recorta cand0
  if cand ∈ letrasEC then some (mapaEC (cand.headD 'S'))
  else if cand.length ≤ 3 ∧ (cand.map mayuscula) ∈ letrasEC then
    some (mapaEC ((cand.map mayuscula).headD 'S'))
  else
    match buscarSCDV cand with
    | some c => some (mapaEC c)
    | none => none

/-- Marital-status strategy 1 (source lines 278-325): every line matching the
tolerant `Estado Ci...` keyword is tried with an eight-line window. -/
def estadoCivil1Aux (ls : List Str) : List Nat → Option Str
  | [] => none
  | i :: is =>
    if contieneEstadoCi (ls.getD i []) then
      match primeraOpc ecDeLinea ((ls.drop (i + 1)).take 8) with
      | some e => some e
      | none => estadoCivil1Aux ls is
    else estadoCivil1Aux ls is

/-- Marital-status strategy 1 entry point. -/
def estadoCivil1 (ls : List Str) : Option Str :=
  estadoCivil1Aux ls (List.range ls.length)

/-- One candidate line of marital-status strategy 2 (source lines 335-346):
a line of at most three characters whose uppercasing contains one of
S, C, D, V — tested in that fixed order. -/
def ec2DeLinea (l : Str) : Option Str :=
  if l.length ≤ 3 then
    match (['S', 'C', 'D', 'V'].find? (fun c => (l.map mayuscula).contains c)) with
    | some c => some (mapaEC c)
    | none => none
  else none

/-- Marital-status strategy 2 (source lines 329-352): near any `Sexo` or
`Estado` keyword line, search the following three lines. -/
def estadoCivil2Aux (ls : List Str) : List Nat → Option Str
  | [] => none
  | i :: is =>
    if contieneCI patSexo (ls.getD i []) || contieneCI patEstado (ls.getD i []) then
      match primeraOpc ec2DeLinea ((ls.drop (i + 1)).take 3) with
      | some e => some e
      | none => estadoCivil2Aux ls is
    else estadoCivil2Aux ls is

/-- Marital-status strategy 2 entry point. -/
def estadoCivil2 (ls : List Str) : Option Str :=
  estadoCivil2Aux ls (List.range ls.length)

/-- Join with single spaces, the model of `' '.join(...)`. -/
def juntaEsp (ls : List Str) : Str := List.intercalate [' '] ls

/-- Marital-status strategy 3 (source lines 355-372): any single-character
line equal to one of the letters; the preceding window is computed from the
index of the FIRST occurrence of that line (`lineas.index`, as in the
source), and must mention a keyword. -/
def estadoCivil3Aux (ls : List Str) : List Str → Option Str
  | [] => none
  | l :: rest =>
    if l.length = 1 ∧ l ∈ letrasEC then
      let idx := List.indexOf l ls
      let contexto := juntaEsp ((ls.drop (idx - 3)).take (idx + 1 - (idx - 3)))
      if contieneCI patEstado contexto ∨ contieneCI patCivil contexto ∨
          contieneCI patSexo contexto then
        some (mapaEC (l.headD 'S'))
      else estadoCivil3Aux ls rest
    else estadoCivil3Aux ls rest

/-- Marital-status strategy 3 entry point. -/
def estadoCivil3 (ls : List Str) : Option Str :=
  estadoCivil3Aux ls ls

/-! ## The record and the orchestrator -/

def strDNIconst : Str := (r"DNI").data
def strErrDni : Str := (r"No se pudo detectar el DNI").data

/-- The `datos` dictionary of `parsear_dni`, with one optional field per key
the source may set. -/
structure Datos where
  dni : Option Str := none
  apellido_paterno : Option Str := none
  apellido_materno : Option Str := none
  nombres : Option Str := none
  fecha_nacimiento : Option Str := none
  fecha_nacimiento_iso : Option Str := none
  edad : Option Int := none
  sexo : Option Str := none
  sexo_completo : Option Str := none
  estado_civil : Option Str := none
  nombre_completo : Option Str := none
  tipo_documento : Option Str := none
deriving DecidableEq

/-- The national-ID strategy chain (source lines 110-128): MRZ marker, then
`DNI` keyword, then bare eight-digit token — each tried only if the previous
one set nothing. -/
def dniDe (texto : Str) : Option Str :=
  match buscarPER texto with
  | some d => some d
  | none =>
    match buscarDNI texto with
    | some d => some d
    | none => buscarSolo texto

/-- The given-names strategy chain (source lines 168-209): MRZ line, then
keyword window, then standalone two-word pattern. -/
def nombresDe (texto : Str) (lineas apellidos : List Str) : Option Str :=
  match mrzNombres texto with
  | some n => some n
  | none =>
    match nombresTexto lineas apellidos with
    | some n => some n
    | none => nombresPatron apellidos lineas

/-- The marital-status strategy chain (source lines 278-372). -/
def estadoCivilDe (lineas : List Str) : Option Str :=
  match estadoCivil1 lineas with
  | some e => some e
  | none =>
    match estadoCivil2 lineas with
    | some e => some e
    | none => estadoCivil3 lineas

/-- The sex section together with the marital-status section.  In the source
(lines 261-372) the whole marital-status block is indented inside
`if "sexo" not in datos:`, the guard of sex strategy 2 — so when the MRZ
compound field already resolved the sex, marital status is never searched. -/
def sexoYEstado (texto : Str) (lineas : List Str) : Option Char × Option Str :=
  match buscarMRZSexo texto with
  | some c => (some c, none)
  | none => (sexoTexto lineas, estadoCivilDe lineas)

/-- Full-name assembly (source lines 379-385). -/
def nombreCompletoDe (nombres ap am : Option Str) : Option Str :=
  match nombres, ap, am with
  | some n, some p, some m => some (n ++ ' ' :: (p ++ ' ' :: m))
  | some n, some p, none => some (n ++ ' ' :: p)
  | none, some p, some m => some (p ++ ' ' :: m)
  | _, _, _ => none

/-- The parser core (source lines 94-394).  `now` is the current proleptic
Gregorian day number, the one observable of `datetime.now()`. -/
def parsear_dni (now : Int) (texto : Str) : Datos :=
  let lineas := lineasDe texto
  let apellidos := buscarApellidos lineas
  let ap := apellidos.get? 0
  let am := apellidos.get? 1
  let nombres := nombresDe texto lineas apellidos
  let fecha := buscarFecha now lineas
  let sexoEC := sexoYEstado texto lineas
  { dni := dniDe texto
    apellido_paterno := ap
    apellido_materno := am
    nombres := nombres
    fecha_nacimiento := fecha.map (fun r => r.1)
    fecha_nacimiento_iso := fecha.map (fun r => r.2.1)
    edad := fecha.map (fun r => r.2.2)
    sexo := sexoEC.1.map (fun c => [c])
    sexo_completo := sexoEC.1.map (fun c => if c = 'M' then strMASCULINO else strFEMENINO)
    estado_civil := sexoEC.2
    nombre_completo := nombreCompletoDe nombres ap am
    tipo_documento := some strDNIconst }

/-- The post-OCR core of `extraer_datos_dni` (source lines 430-446): parse
the recognised text; fail with the single hard error when the national ID is
missing or empty (`if not datos.get("dni")`), discarding the record. -/
def extraer_nucleo (now : Int) (texto : Str) : Except Str Datos :=
  if ((parsear_dni now texto).dni.getD []).isEmpty then Except.error strErrDni
  else Except.ok (parsear_dni now texto)

/-! ## Specification-side definitions

These follow the words of the specification (for refinement comparisons);
they are not translations of the source. -/

/-- Surname candidate acceptance as the (amended) specification words it:
at least 3 characters, only uppercase letters and diacritics, not a
pure-digit run of length at least 6, not already accepted. -/
def pasoApellidoSpec (acc : List Str) (cand0 : Str) : List Str :=
  let cand := recorta cand0
  if 3 ≤ cand.length ∧ cand.all esMayusEx ∧ esDigitos6 cand = false ∧ cand ∉ acc
  then acc ++ [cand] else acc

/-- The surname list as the specification words it: for every line matching
a surname keyword, the following up to five lines are candidates, accepted
by `pasoApellidoSpec` in encounter order. -/
def apellidosSpec (ls : List Str) : List Str :=
  List.foldl
    (fun acc i =>
      if claveApellido (ls.getD i []) then
        List.foldl pasoApellidoSpec acc ((ls.drop (i + 1)).take 5)
      else acc)
    [] (List.range ls.length)

/-- The name normalizer as the specification words it: split at the first
vocabulary entry that is a prefix of the token whose remainder is itself a
vocabulary member or has length at least 3. -/
def separarSpecAux (n : Str) : List Str → Option Str
  | [] => none
  | e :: rest =>
    if esPrefijo e n ∧ (n.drop e.length ∈ nombres_comunes ∨ 3 ≤ (n.drop e.length).length)
    then some (e ++ ' ' :: n.drop e.length)
    else separarSpecAux n rest

/-- Entry point of the specification-side name normalizer. -/
def separarSpec (n : Str) : Str := (separarSpecAux n nombres_comunes).getD n

/-! ## Concrete inputs used by the claims -/

/-- Reference evaluation date: 2026-10-12 as a day number. -/
def hoy : Int := rataDie 2026 10 12

/-- The end-to-end context of the specification's example (claim C1). -/
def textoC1 : Str :=
  ("DNI12345678\nPRIMER APELLIDO\nGARCIA\nSEGUNDO APELLIDO\nLOPEZ\nPRE NOMBRES\nJUANCARLOS\nFECHA DE NACIMIENTO\n01012000\nSEXO\nM").data

/-- A context whose sex resolves from the MRZ compound field and that also
carries a marital-status keyword followed by a qualifying letter. -/
def textoC3 : Str := ("DNI 87654321\n123456M1234567\nEstado Civil\nS").data

/-- The same context without the MRZ sex line. -/
def textoC3sin : Str := ("DNI 87654321\nEstado Civil\nS").data

/-- A surname keyword followed by an uppercase candidate containing a space. -/
def textoC6 : Str := ("APELLIDO\nABC DEF").data

/-- A context with a birth date (so that the derived age depends on the
current date). -/
def textoC9 : Str := ("Nacimiento\n01012000").data

/-! ## Claim C1 -/

/-- Claim C1, counterexample: on the specification's own end-to-end context
the extracted given names are NOT `JUAN CARLOS` — the five-line surname
window swallows `JUANCARLOS` as a surname candidate, so the given-names scan
skips it and accepts the next label line instead. -/
theorem c1_contraejemplo :
    (parsear_dni hoy textoC1).nombres ≠ some ((r"JUAN CARLOS").data) ∧
    (parsear_dni hoy textoC1).nombres = some ((r"FECHA DE NACIMIENTO").data) := by
  decide

/-- Claim C1 as amended: the record the parser actually returns on that
context, evaluated at the reference date 2026-10-12 (age 26). -/
theorem c1_registro_real :
    parsear_dni hoy textoC1 =
      { dni := some ((r"12345678").data)
        apellido_paterno := some ((r"GARCIA").data)
        apellido_materno := some ((r"LOPEZ").data)
        nombres := some ((r"FECHA DE NACIMIENTO").data)
        fecha_nacimiento := some ((r"01/01/2000").data)
        fecha_nacimiento_iso := some ((r"2000-01-01").data)
        edad := some 26
        sexo := some strM
        sexo_completo := some strMASCULINO
        estado_civil := none
        nombre_completo := some ((r"FECHA DE NACIMIENTO GARCIA LOPEZ").data)
        tipo_documento := some strDNIconst } := by
  decide

/-! ## Claim C3 -/

/-- Claim C3, the divergence: a context whose marital-status keyword line is
followed by a qualifying single-letter line, but whose sex was resolved from
the MRZ compound field — the marital-status section, nested under
`if "sexo" not in datos:` in the source, never runs, and the field stays
absent; dropping the MRZ line makes the very same keyword/letter pair yield
`SOLTERO`. -/
theorem c3_omision :
    contieneEstadoCi ((lineasDe textoC3).getD 2 []) = true ∧
    (lineasDe textoC3).getD 3 [] = ['S'] ∧
    (parsear_dni hoy textoC3).sexo = some strM ∧
    (parsear_dni hoy textoC3).estado_civil = none ∧
    (parsear_dni hoy textoC3sin).estado_civil = some strSOLTERO := by
  decide

/-! ## Claim C4 -/

/-- Claim C4, counterexample: an 8-character token containing the non-digit
`+` is not rejected — Python's `int()` accepts a signed component, so the
corrector returns a formatted value. -/
theorem c4_contraejemplo :
    corregir_fecha_ocr ((r"12+32000").data) = some ((r"12/+3/2000").data) := by
  decide

/-- Claim C4 as amended: the corrector does fail for every token whose
length is not 8; but an 8-character token containing non-digits fails only
when a corrected component is rejected by Python's `int()` — any value it
does return decomposes into components that integer-parse and form a real
calendar date, which is all the non-digit clause can guarantee. -/
theorem c4_enmendada :
    (∀ s : Str, s.length ≠ 8 → corregir_fecha_ocr s = none) ∧
    (∀ s r : Str, corregir_fecha_ocr s = some r →
      s.length = 8 ∧ ∃ dia mes anio y m d,
        r = dia ++ '/' :: (mes ++ '/' :: anio) ∧
        pyInt anio = some y ∧ pyInt mes = some m ∧ pyInt dia = some d ∧
        esFechaValida y m d = true) := by
  constructor
  · intro s h
    unfold corregir_fecha_ocr
    rw [if_pos h]
  · intro s r h
    simp only [corregir_fecha_ocr] at h
    split at h
    next => cases h
    next hlen =>
      refine ⟨not_not.mp hlen, ?_⟩
      split at h
      next => cases h
      next dia hdia =>
        split at h
        next y m d hy hm hd =>
          split at h
          next hval =>
            cases h
            exact ⟨dia, _, _, y, m, d, rfl, hy, hm, hd, hval⟩
          next => cases h
        next => cases h

/-- Witness for `c4_enmendada`, discharging the length hypothesis at a
concrete 7-character token. -/
theorem c4_enmendada_testigo :
    corregir_fecha_ocr ((r"1234567").data) = none :=
  c4_enmendada.1 ((r"1234567").data) (by decide)

/-! ## Claim C5 -/

/-- Claim C5: the literal corrections are applied in order (day zero-pad,
month 19→10, years 2062→2002 and 2919→2019) and the result is validated as
a real calendar date (Feb 31 is rejected even after correction). -/
theorem c5_correcciones :
    corregir_fecha_ocr ((r"35042000").data) = some ((r"05/04/2000").data) ∧
    corregir_fecha_ocr ((r"15062062").data) = some ((r"15/06/2002").data) ∧
    corregir_fecha_ocr ((r"01012919").data) = some ((r"01/01/2019").data) ∧
    corregir_fecha_ocr ((r"15192000").data) = some ((r"15/10/2000").data) ∧
    corregir_fecha_ocr ((r"31022000").data) = none := by
  decide

/-! ## Claim C6 -/

/-- Claim C6, counterexample: the candidate `ABC DEF` after a surname
keyword satisfies every acceptance condition the claim states (length at
least 3, only uppercase letters and spaces, not a digit run, nothing
accepted before it), yet it does not become the paternal surname: the
source's final acceptance pattern `^[A-ZÁÉÍÓÚÑ]+$` has no space in it. -/
theorem c6_contraejemplo :
    claveApellido ((lineasDe textoC6).getD 0 []) = true ∧
    recorta ((lineasDe textoC6).getD 1 []) = (r"ABC DEF").data ∧
    3 ≤ ((r"ABC DEF").data).length ∧
    ((r"ABC DEF").data).all (fun c => esMayusEx c || esPySpace c) = true ∧
    esDigitos6 ((r"ABC DEF").data) = false ∧
    (parsear_dni hoy textoC6).apellido_paterno = none := by
  decide

/-! ## Claim C9 -/

/-- Claim C9, counterexample: the same context parsed at two different
current dates yields different records — the derived age changes with the
ambient clock that `datetime.now()` reads. -/
theorem c9_contraejemplo :
    parsear_dni (rataDie 2026 10 12) textoC9 ≠ parsear_dni (rataDie 2027 10 12) textoC9 ∧
    (parsear_dni (rataDie 2026 10 12) textoC9).edad = some 26 ∧
    (parsear_dni (rataDie 2027 10 12) textoC9).edad = some 27 := by
  decide

/-- Claim C9 as amended: the extraction core is a pure function of the
context and the current date; identical context and identical clock reading
yield identical records. -/
theorem c9_determinismo (n1 n2 : Int) (t1 t2 : Str) (h1 : n1 = n2) (h2 : t1 = t2) :
    parsear_dni n1 t1 = parsear_dni n2 t2 := by
  rw [h1, h2]

/-- Witness for `c9_determinismo` at a concrete context and date. -/
theorem c9_determinismo_testigo :
    parsear_dni hoy textoC9 = parsear_dni hoy textoC9 :=
  c9_determinismo hoy hoy textoC9 textoC9 rfl rfl

/-! ## Inversion lemmas for the scanners -/

theorem escanear_algun {β : Type} {f : Str → Option β} {s : Str} {b : β}
    (h : escanear f s = some b) : ∃ t, f t = some b := by
  induction s with
  | nil => exact ⟨[], h⟩
  | cons c r ih =>
    rw [escanear] at h
    split at h
    next hf => exact ⟨c :: r, hf.trans h⟩
    next => exact ih h

theorem escanearPal_algun {β : Type} {f : Bool → Str → Option β} {s : Str} {b : β} :
    ∀ {pw : Bool}, escanearPal f pw s = some b → ∃ pw' t, f pw' t = some b := by
  induction s with
  | nil => intro pw h; cases h
  | cons c r ih =>
    intro pw h
    rw [escanearPal] at h
    split at h
    next hf => exact ⟨pw, c :: r, hf.trans h⟩
    next => exact ih h

theorem primeraOpc_algun {β : Type} {f : Str → Option β} {ls : List Str} {b : β}
    (h : primeraOpc f ls = some b) : ∃ l, f l = some b := by
  induction ls with
  | nil => cases h
  | cons l rest ih =>
    rw [primeraOpc] at h
    split at h
    next hf => exact ⟨l, hf.trans h⟩
    next => exact ih h

/-! ## Claim C2 -/

theorem matchPEREn_largo {s t : Str} (h : matchPEREn s = some t) : t.length = 8 := by
  unfold matchPEREn at h
  split at h
  · split at h
    next hc => cases h; exact hc.1
    next => cases h
  · cases h

theorem matchDNIEn_largo {s t : Str} (h : matchDNIEn s = some t) : t.length = 8 := by
  unfold matchDNIEn at h
  split at h
  · split at h
    next hc => cases h; exact hc.1
    next => cases h
  · cases h

theorem matchSoloEn_largo {pw : Bool} {s t : Str} (h : matchSoloEn pw s = some t) :
    t.length = 8 := by
  unfold matchSoloEn at h
  split at h
  · cases h
  · split at h
    next hc => cases h; exact hc.1
    next => cases h

theorem largo8_no_vacio {t : Str} (h : t.length = 8) : t ≠ [] := by
  intro hnil; subst hnil; cases h

theorem buscarPER_no_vacio {texto t : Str} (h : buscarPER texto = some t) : t ≠ [] := by
  obtain ⟨s, hs⟩ := escanear_algun h
  exact largo8_no_vacio (matchPEREn_largo hs)

theorem buscarDNI_no_vacio {texto t : Str} (h : buscarDNI texto = some t) : t ≠ [] := by
  obtain ⟨s, hs⟩ := escanear_algun h
  exact largo8_no_vacio (matchDNIEn_largo hs)

theorem buscarSolo_no_vacio {texto t : Str} (h : buscarSolo texto = some t) : t ≠ [] := by
  obtain ⟨pw, s, hs⟩ := escanearPal_algun h
  exact largo8_no_vacio (matchSoloEn_largo hs)

theorem parsear_dni_campo_dni (now : Int) (texto : Str) :
    (parsear_dni now texto).dni = dniDe texto := rfl

/-- Claim C2: the orchestrator returns the single hard error exactly when
none of the three national-ID strategies resolves a value; a resolved value
is never empty, so the success test `not datos.get("dni")` coincides with
the strategies all failing. -/
theorem c2_error_sin_dni (now : Int) (texto : Str) :
    extraer_nucleo now texto = Except.error strErrDni ↔
      buscarPER texto = none ∧ buscarDNI texto = none ∧ buscarSolo texto = none := by
  have hdni : (parsear_dni now texto).dni = dniDe texto := parsear_dni_campo_dni now texto
  constructor
  · intro h
    unfold extraer_nucleo at h
    split at h
    next hvac =>
      rw [hdni] at hvac
      unfold dniDe at hvac
      cases hp : buscarPER texto with
      | some t =>
        rw [hp] at hvac
        simp only [Option.getD_some] at hvac
        exact absurd (List.isEmpty_iff.mp hvac) (buscarPER_no_vacio hp)
      | none =>
        rw [hp] at hvac
        cases hq : buscarDNI texto with
        | some t =>
          rw [hq] at hvac
          simp only [Option.getD_some] at hvac
          exact absurd (List.isEmpty_iff.mp hvac) (buscarDNI_no_vacio hq)
        | none =>
          rw [hq] at hvac
          cases hr : buscarSolo texto with
          | some t =>
            rw [hr] at hvac
            simp only [Option.getD_some] at hvac
            exact absurd (List.isEmpty_iff.mp hvac) (buscarSolo_no_vacio hr)
          | none => exact ⟨rfl, rfl, rfl⟩
    next => cases h
  · rintro ⟨h1, h2, h3⟩
    have hnone : (parsear_dni now texto).dni = none := by
      rw [hdni]; unfold dniDe; rw [h1, h2, h3]
    unfold extraer_nucleo
    rw [hnone]
    rfl

/-- Witness for `c2_error_sin_dni` at a concrete context with no resolvable
national ID. -/
theorem c2_error_sin_dni_testigo :
    extraer_nucleo hoy textoC6 = Except.error strErrDni ∧
    buscarPER textoC6 = none ∧ buscarDNI textoC6 = none ∧ buscarSolo textoC6 = none :=
  ⟨(c2_error_sin_dni hoy textoC6).mpr ⟨by decide, by decide, by decide⟩,
    by decide, by decide, by decide⟩

/-! ## Claim C7 -/

theorem vacio_no_en_comunes : ([] : Str) ∉ nombres_comunes := by decide

theorem esPrefijo_longitud : ∀ e n : Str, esPrefijo e n = true → e.length ≤ n.length := by
  intro e
  induction e with
  | nil => intro n _; exact Nat.zero_le _
  | cons a as ih =>
    intro n h
    cases n with
    | nil => cases h
    | cons b bs =>
      rw [esPrefijo, Bool.and_eq_true] at h
      exact Nat.succ_le_succ (ih bs h.2)

theorem separarAux_eq_spec (n : Str) : ∀ l : List Str, separarAux n l = separarSpecAux n l := by
  intro l
  induction l with
  | nil => rfl
  | cons e rest ih =>
    rw [separarAux, separarSpecAux]
    by_cases hp : esPrefijo e n = true
    · by_cases hl : e.length < n.length
      · rw [if_pos ⟨hp, hl⟩]
        by_cases hq : n.drop e.length ∈ nombres_comunes ∨ 3 ≤ (n.drop e.length).length
        · rw [if_pos hq, if_pos ⟨hp, hq⟩]
        · rw [if_neg hq, if_neg (fun hc => hq hc.2), ih]
      · have hdrop : n.drop e.length = [] :=
          List.drop_eq_nil_of_le (Nat.le_of_not_lt hl)
        rw [if_neg (fun hc => hl hc.2), if_neg, ih]
        rintro ⟨-, hin | hlen⟩
        · rw [hdrop] at hin; exact vacio_no_en_comunes hin
        · rw [hdrop] at hlen; exact absurd hlen (by decide)
    · rw [if_neg (fun hc => hp hc.1), if_neg (fun hc => hp hc.1), ih]

/-- Claim C7: the name token normalizer behaves exactly as specified — it
splits at the first vocabulary entry that is a prefix of the token whose
remainder is a vocabulary member or has length at least 3, and returns the
token unchanged otherwise; with the three example evaluations. -/
theorem c7_normalizador :
    (∀ n : Str, separar_nombres_pegados n = separarSpec n) ∧
    separar_nombres_pegados ((r"JORGELUIS").data) = (r"JORGE LUIS").data ∧
    separar_nombres_pegados ((r"MARIAISABEL").data) = (r"MARIA ISABEL").data ∧
    separar_nombres_pegados ((r"ZAMBRANO").data) = (r"ZAMBRANO").data := by
  refine ⟨fun n => ?_, by decide, by decide, by decide⟩
  unfold separar_nombres_pegados separarSpec
  rw [separarAux_eq_spec]

/-! ## Claim C6 (amended part) -/

theorem mayusEx_no_digito {x : Char} (h : esMayusEx x = true) : esDigito x = false := by
  rw [Bool.eq_false_iff]
  intro hd
  simp only [esDigito, Bool.and_eq_true, decide_eq_true_eq] at hd
  simp only [esMayusEx, esMayusAsc, Bool.or_eq_true, Bool.and_eq_true,
    decide_eq_true_eq] at h
  rcases h with ⟨h1, h2⟩ | h2
  · omega
  · have hx : x ∈ acentosMayus := by simpa using h2
    fin_cases hx <;> revert hd <;> decide

theorem todo_mayus_sin_simbolo {c : Str} (h : c.all esMayusEx = true) :
    tieneSimbolo c = false := by
  rw [Bool.eq_false_iff]
  intro hs
  simp only [tieneSimbolo, List.any_eq_true] at hs
  obtain ⟨x, hx, hbad⟩ := hs
  rw [List.all_eq_true] at h
  rw [h x hx] at hbad
  simp at hbad

theorem mayus_no_digitos6 {c : Str} (h : c.all esMayusEx = true) :
    esDigitos6 c = false := by
  rw [Bool.eq_false_iff]
  intro hd
  simp only [esDigitos6, Bool.and_eq_true, decide_eq_true_eq] at hd
  obtain ⟨h6, hall⟩ := hd
  cases c with
  | nil => exact absurd h6 (by decide)
  | cons x r =>
    rw [List.all_cons, Bool.and_eq_true] at h hall
    rw [mayusEx_no_digito h.1] at hall
    cases hall.1

theorem mayusPuras_iff {c : Str} :
    esMayusPuras c = true ↔ c ≠ [] ∧ c.all esMayusEx = true := by
  simp [esMayusPuras, List.isEmpty_iff]

theorem pasoApellido_eq_spec (acc : List Str) (cand0 : Str) :
    pasoApellido acc cand0 = pasoApellidoSpec acc cand0 := by
  simp only [pasoApellido, pasoApellidoSpec]
  by_cases hd : esDigitos6 (recorta cand0) = true
  · rw [if_pos hd, if_neg]
    rintro ⟨-, -, hf, -⟩
    rw [hd] at hf; cases hf
  · rw [if_neg hd]
    by_cases hshort : (recorta cand0).length < 3 ∨ tieneSimbolo (recorta cand0) = true
    · rw [if_pos hshort, if_neg]
      rintro ⟨h3, hall, -, -⟩
      rcases hshort with hlt | hsym
      · omega
      · rw [todo_mayus_sin_simbolo hall] at hsym; cases hsym
    · rw [if_neg hshort]
      by_cases hmay : esMayusPuras (recorta cand0) = true
      · rw [if_pos hmay]
        have hall : (recorta cand0).all esMayusEx = true := (mayusPuras_iff.mp hmay).2
        have h3 : 3 ≤ (recorta cand0).length :=
          Nat.le_of_not_lt (fun hlt => hshort (Or.inl hlt))
        by_cases hmem : recorta cand0 ∈ acc
        · rw [if_pos hmem, if_neg]
          rintro ⟨-, -, -, hnm⟩
          exact hnm hmem
        · rw [if_neg hmem, if_pos ⟨h3, hall, mayus_no_digitos6 hall, hmem⟩]
      · rw [if_neg hmay, if_neg]
        rintro ⟨h3, hall, -, -⟩
        refine hmay (mayusPuras_iff.mpr ⟨?_, hall⟩)
        intro hnil
        rw [hnil] at h3
        exact absurd h3 (by decide)

theorem foldl_congr_fun {α β : Type} {f g : α → β → α} (h : ∀ a b, f a b = g a b) :
    ∀ (l : List β) (a : α), List.foldl f a l = List.foldl g a l := by
  intro l
  induction l with
  | nil => intro a; rfl
  | cons b bs ih => intro a; rw [List.foldl_cons, List.foldl_cons, h, ih]

theorem buscarApellidos_eq_spec (ls : List Str) :
    buscarApellidos ls = apellidosSpec ls := by
  unfold buscarApellidos apellidosSpec
  apply foldl_congr_fun
  intro a i
  by_cases h : claveApellido (ls.getD i []) = true
  · rw [if_pos h, if_pos h]
    exact foldl_congr_fun pasoApellido_eq_spec _ a
  · rw [if_neg h, if_neg h]

/-- Claim C6 as amended: the surname window accepts exactly the candidates
that are at least 3 characters long, made only of uppercase letters and
diacritics — spaces disqualify a candidate, because the final acceptance
pattern `^[A-ZÁÉÍÓÚÑ]+$` has no space — are not pure-digit runs, and are
not already accepted; the first two accepted candidates become the paternal
and maternal surnames. -/
theorem c6_enmendada (now : Int) (texto : Str) :
    buscarApellidos (lineasDe texto) = apellidosSpec (lineasDe texto) ∧
    (parsear_dni now texto).apellido_paterno = (apellidosSpec (lineasDe texto)).get? 0 ∧
    (parsear_dni now texto).apellido_materno = (apellidosSpec (lineasDe texto)).get? 1 := by
  refine ⟨buscarApellidos_eq_spec _, ?_, ?_⟩
  · show (buscarApellidos (lineasDe texto)).get? 0 = _
    rw [buscarApellidos_eq_spec]
  · show (buscarApellidos (lineasDe texto)).get? 1 = _
    rw [buscarApellidos_eq_spec]

/-! ## Claim C8 -/

theorem valida8_inv {now : Int} {fc : Str} {r : Str × Str × Int}
    (h : valida8 now fc = some r) :
    r.1 = fc ∧ ∃ dia mes anio y m d,
      partirBarras fc = [dia, mes, anio] ∧
      pyInt anio = some y ∧ pyInt mes = some m ∧ pyInt dia = some d ∧
      esFechaValida y m d = true ∧
      r.2.2 = (now - rataDie y m d).fdiv 365 ∧
      0 ≤ r.2.2 ∧ r.2.2 ≤ 120 := by
  simp only [valida8] at h
  split at h
  next dia mes anio hsplit =>
    split at h
    next y m d hy hm hd =>
      split at h
      next hval =>
        split at h
        next hrange =>
          cases h
          exact ⟨rfl, dia, mes, anio, y, m, d, hsplit, hy, hm, hd, hval, rfl,
            hrange.1, hrange.2⟩
        next => cases h
      next => cases h
    next => cases h
  next => cases h

theorem fechaDeLinea_inv {now : Int} {l : Str} {r : Str × Str × Int}
    (h : fechaDeLinea now l = some r) : ∃ fc, valida8 now fc = some r := by
  unfold fechaDeLinea at h
  split at h
  next raw hraw =>
    split at h
    next fc hfc => exact ⟨fc, h⟩
    next => cases h
  next => cases h

theorem buscarFechaAux_inv {now : Int} {ls : List Str} {r : Str × Str × Int} :
    ∀ {idx : List Nat}, buscarFechaAux now ls idx = some r →
      ∃ l, fechaDeLinea now l = some r := by
  intro idx
  induction idx with
  | nil => intro h; cases h
  | cons i is ih =>
    intro h
    rw [buscarFechaAux] at h
    split at h
    next hk =>
      split at h
      next r2 hw => cases h; exact primeraOpc_algun hw
      next => exact ih h
    next => exact ih h

theorem parsear_dni_campo_fecha (now : Int) (texto : Str) :
    (parsear_dni now texto).fecha_nacimiento =
      (buscarFecha now (lineasDe texto)).map (fun r => r.1) := rfl

theorem parsear_dni_campo_edad (now : Int) (texto : Str) :
    (parsear_dni now texto).edad =
      (buscarFecha now (lineasDe texto)).map (fun r => r.2.2) := rfl

/-- Claim C8: whenever the returned record carries a birth date, that string
splits as day/month/year components that integer-parse and form a real
calendar date, and the stored age is derived from it and lies in [0,120];
an invalid candidate is never stored. -/
theorem c8_invariante (now : Int) (texto : Str) (d : Str)
    (h : (parsear_dni now texto).fecha_nacimiento = some d) :
    ∃ dia mes anio y m dd,
      partirBarras d = [dia, mes, anio] ∧
      pyInt anio = some y ∧ pyInt mes = some m ∧ pyInt dia = some dd ∧
      esFechaValida y m dd = true ∧
      (parsear_dni now texto).edad = some ((now - rataDie y m dd).fdiv 365) ∧
      0 ≤ (now - rataDie y m dd).fdiv 365 ∧ (now - rataDie y m dd).fdiv 365 ≤ 120 := by
  rw [parsear_dni_campo_fecha] at h
  cases hb : buscarFecha now (lineasDe texto) with
  | none => rw [hb] at h; cases h
  | some r =>
    rw [hb] at h
    have hd : r.1 = d := by
      simp only [Option.map_some'] at h
      injection h
    obtain ⟨l, hl⟩ := buscarFechaAux_inv hb
    obtain ⟨fc, hv⟩ := fechaDeLinea_inv hl
    obtain ⟨hfc1, dia, mes, anio, y, m, dd, hsplit, hy, hm, hdd, hval, hed, h0, h120⟩ :=
      valida8_inv hv
    have hfcd : fc = d := hfc1 ▸ hd
    refine ⟨dia, mes, anio, y, m, dd, hfcd ▸ hsplit, hy, hm, hdd, hval, ?_, ?_, ?_⟩
    · rw [parsear_dni_campo_edad, hb]
      simp only [Option.map_some']
      rw [← hed]
    · rw [← hed]; exact h0
    · rw [← hed]; exact h120

/-- Witness for `c8_invariante` at the concrete context `textoC9`. -/
theorem c8_invariante_testigo :
    ∃ dia mes anio y m dd,
      partirBarras ((r"01/01/2000").data) = [dia, mes, anio] ∧
      pyInt anio = some y ∧ pyInt mes = some m ∧ pyInt dia = some dd ∧
      esFechaValida y m dd = true ∧
      (parsear_dni hoy textoC9).edad = some ((hoy - rataDie y m dd).fdiv 365) ∧
      0 ≤ (hoy - rataDie y m dd).fdiv 365 ∧ (hoy - rataDie y m dd).fdiv 365 ≤ 120 :=
  c8_invariante hoy textoC9 ((r"01/01/2000").data) (by decide)

/-! ## Claim C10 -/

theorem matchMrzSexoEn_MF {s : Str} {c : Char} (h : matchMrzSexoEn s = some c) :
    c = 'M' ∨ c = 'F' := by
  unfold matchMrzSexoEn at h
  split at h
  next hc =>
    split at h
    next => cases h
    next c2 r =>
      split at h
      next hcond => cases h; exact hcond.1
      next => cases h
  next => cases h

theorem buscarMRZSexo_MF {texto : Str} {c : Char} (h : buscarMRZSexo texto = some c) :
    c = 'M' ∨ c = 'F' := by
  obtain ⟨t, ht⟩ := escanear_algun h
  exact matchMrzSexoEn_MF ht

theorem sexoDeLinea_MF {l : Str} {c : Char} (h : sexoDeLinea l = some c) :
    c = 'M' ∨ c = 'F' := by
  unfold sexoDeLinea at h
  split at h
  next hcond =>
    cases h
    by_cases hm : l = strM ∨ l = strMASCULINO
    · left; rw [if_pos hm]
    · right; rw [if_neg hm]
  next => cases h

theorem sexoTextoAux_MF {ls : List Str} {c : Char} :
    ∀ {idx : List Nat}, sexoTextoAux ls idx = some c → c = 'M' ∨ c = 'F' := by
  intro idx
  induction idx with
  | nil => intro h; cases h
  | cons i is ih =>
    intro h
    rw [sexoTextoAux] at h
    split at h
    next hk =>
      obtain ⟨l, hl⟩ := primeraOpc_algun h
      exact sexoDeLinea_MF hl
    next hk => exact ih h

theorem sexoTexto_MF {ls : List Str} {c : Char} (h : sexoTexto ls = some c) :
    c = 'M' ∨ c = 'F' :=
  sexoTextoAux_MF h

theorem parsear_dni_campo_sexo (now : Int) (texto : Str) :
    (parsear_dni now texto).sexo =
      (sexoYEstado texto (lineasDe texto)).1.map (fun c => [c]) := rfl

theorem parsear_dni_campo_sexo_completo (now : Int) (texto : Str) :
    (parsear_dni now texto).sexo_completo =
      (sexoYEstado texto (lineasDe texto)).1.map
        (fun c => if c = 'M' then strMASCULINO else strFEMENINO) := rfl

theorem sexoYEstado_MF {texto : Str} {ls : List Str} {c : Char}
    (h : (sexoYEstado texto ls).1 = some c) : c = 'M' ∨ c = 'F' := by
  unfold sexoYEstado at h
  split at h
  next c2 hb => cases h; exact buscarMRZSexo_MF hb
  next hb => exact sexoTexto_MF h

/-- Claim C10: the sex field and its label are present together or absent
together, the sex is always `M` or `F`, and the label is `MASCULINO`
exactly for `M` and `FEMENINO` exactly for `F`. -/
theorem c10_sexo (now : Int) (texto : Str) :
    ((parsear_dni now texto).sexo = none ∧
      (parsear_dni now texto).sexo_completo = none) ∨
    ((parsear_dni now texto).sexo = some strM ∧
      (parsear_dni now texto).sexo_completo = some strMASCULINO) ∨
    ((parsear_dni now texto).sexo = some strF ∧
      (parsear_dni now texto).sexo_completo = some strFEMENINO) := by
  rw [parsear_dni_campo_sexo, parsear_dni_campo_sexo_completo]
  cases hfst : (sexoYEstado texto (lineasDe texto)).1 with
  | none => left; exact ⟨rfl, rfl⟩
  | some c =>
    rcases sexoYEstado_MF hfst with hc | hc <;> subst hc
    · right; left
      exact ⟨by decide, by decide⟩
    · right; right
      exact ⟨by decide, by decide⟩

end OcrDni
